import Mathlib

/-!
Verification of the NanoGPT copilot provider model-resolution core.

The development shallowly embeds the TypeScript sources:
* `types.ts` — response schema, endpoint registry, retry configuration;
* `nanogptModels.ts` — `retryWithBackoff`, `fetchModelsFromEndpoint`,
  `NanoGPTModelsService.fetchModels`, `ensureApiKey`,
  `prepareLanguageModelChatInformation`.

Asynchronous I/O is made explicit: the behaviour of the network is a
parameter (`server`) giving the outcome of each HTTP attempt, and each
embedded operation returns a trace recording its result together with the
observable effects (attempt counts, backoff delays, prompts, secret-store
writes, notifier messages).
-/

namespace NanoGPT

/-- The three catalog categories of `types.ts` (`ModelType`). -/
inductive ModelType where
  | all
  | premium
  | subscription
deriving DecidableEq, Repr

/-- Render a `ModelType` the way the string union renders in TypeScript
(used in tooltips). -/
def ModelType.asString : ModelType → String
  | .all => "all"
  | .premium => "premium"
  | .subscription => "subscription"

/-- `EndpointConfig` from `types.ts`. -/
structure EndpointConfig where
  url : String
  category : ModelType
  displayName : String
  description : String
deriving DecidableEq, Repr

/-- `RetryConfig` from `types.ts`. -/
structure RetryConfig where
  maxAttempts : Nat
  delayMs : Nat
  backoffMultiplier : Nat
deriving DecidableEq, Repr

/-- `BASE_URL` from `nanogptModels.ts`. -/
def BASE_URL : String := "https://nano-gpt.com/api/v1"

/-- `DEFAULT_CONTEXT_LENGTH` from `nanogptModels.ts`. -/
def DEFAULT_CONTEXT_LENGTH : Int := 128000

/-- `DEFAULT_MAX_OUTPUT_TOKENS` from `nanogptModels.ts`. -/
def DEFAULT_MAX_OUTPUT_TOKENS : Int := 16000

/-- `RETRY_CONFIG` from `nanogptModels.ts`. -/
def RETRY_CONFIG : RetryConfig :=
  { maxAttempts := 3, delayMs := 1000, backoffMultiplier := 2 }

/-- `ENDPOINT_CONFIGS` from `nanogptModels.ts` (a `Record<ModelType, EndpointConfig>`,
declared in the order all, premium, subscription). -/
def ENDPOINT_CONFIGS : ModelType → EndpointConfig
  | .all =>
    { url := "https://nano-gpt.com/api/v1/models?detailed=true"
      category := .all
      displayName := "All Models"
      description := "Access to all available NanoGPT models" }
  | .premium =>
    { url := "https://nano-gpt.com/api/paid/v1/models?detailed=true"
      category := .premium
      displayName := "Premium Models"
      description := "Access to premium NanoGPT models" }
  | .subscription =>
    { url := "https://nano-gpt.com/api/subscription/v1/models?detailed=true"
      category := .subscription
      displayName := "Subscription Models"
      description := "Access to subscription-based NanoGPT models" }

/-- Pricing sub-object of `NanoGPTModelDetailsSchema` (all fields optional
numbers; passthrough only). -/
structure Pricing where
  prompt : Option Int := none
  completion : Option Int := none
  image : Option Int := none
  request : Option Int := none
deriving DecidableEq, Repr

/-- One validated catalog entry: the fields of `NanoGPTModelDetailsSchema`
(`types.ts`).  `id` and `name` are required strings (they may still be
empty strings — `z.string()` accepts those); `object` defaults to
`"model"`; the remaining fields are optional, with the nullable numeric
fields flattened to `Option`.  The enumerated `supported_features` /
`supported_sampling_parameters` arrays are passthrough data that no
embedded operation reads, kept as raw strings. -/
structure NanoGPTModelDetails where
  id : String
  name : String
  description : Option String := none
  object : String := "model"
  created : Option Int := none
  owned_by : Option String := none
  vision : Option Bool := none
  context_length : Option Int := none
  max_output_length : Option Int := none
  pricing : Option Pricing := none
  supported_features : List String := []
  supported_sampling_parameters : List String := []
deriving DecidableEq, Repr

/-- `CategorizedModel` from `types.ts`: a validated entry stamped with the
endpoint it came from. -/
structure CategorizedModel extends NanoGPTModelDetails where
  endpoint : String
  category : ModelType
deriving DecidableEq, Repr

/-- The failure classes thrown inside one fetch attempt
(`fetchModelsFromEndpoint`'s closure in `nanogptModels.ts`): a non-2xx
response, a schema-validation failure, an empty `data` array, or a
transport-level rejection of `fetch` itself. -/
inductive FetchError where
  | http (status : Nat) (statusText : String) (errorText : String)
  | validation (msg : String)
  | emptyCatalog
  | network (msg : String)
deriving DecidableEq, Repr

/-- The `message` of the JS `Error` object each failure class is thrown as
(string templates from `fetchModelsFromEndpoint`). -/
def FetchError.message : FetchError → String
  | .http status statusText errorText =>
      "HTTP " ++ toString status ++ ": " ++ statusText ++ " - " ++ errorText
  | .validation msg => "API response validation failed: " ++ msg
  | .emptyCatalog => "No models data found in API response"
  | .network msg => msg

/-- The trace of one `retryWithBackoff` run: the final outcome, how many
times the operation was attempted, and the backoff suspensions (in
milliseconds) actually awaited, in order. -/
structure RetryTrace (α : Type) where
  result : Except FetchError α
  attempts : Nat
  delays : List Nat
deriving Repr

/-- The loop body of `retryWithBackoff` (`nanogptModels.ts`).  `op k` is
the outcome of the k-th attempt of the operation (attempts are 1-indexed
as in the source loop); `remaining` is how many attempts are still
allowed, counting the current one.  On failure with more attempts left the
loop awaits `delayMs * backoffMultiplier ^ (attempt - 1)` and retries; on
failure at the last allowed attempt it breaks and rethrows the last error
unchanged. -/
def retryAux {α : Type} (op : Nat → Except FetchError α) (cfg : RetryConfig)
    (attempt : Nat) : Nat → RetryTrace α
  | 0 =>
    match op attempt with
    | .ok v => { result := .ok v, attempts := attempt, delays := [] }
    | .error e => { result := .error e, attempts := attempt, delays := [] }
  | 1 =>
    match op attempt with
    | .ok v => { result := .ok v, attempts := attempt, delays := [] }
    | .error e => { result := .error e, attempts := attempt, delays := [] }
  | (r + 2) =>
    match op attempt with
    | .ok v => { result := .ok v, attempts := attempt, delays := [] }
    | .error _ =>
      let d := cfg.delayMs * cfg.backoffMultiplier ^ (attempt - 1)
      let rest := retryAux op cfg (attempt + 1) (r + 1)
      { result := rest.result, attempts := rest.attempts, delays := d :: rest.delays }

/-- `retryWithBackoff` from `nanogptModels.ts`: run `op` up to
`cfg.maxAttempts` times starting at attempt 1.  (The source's default
argument is `RETRY_CONFIG`; all call sites use it.) -/
def retryWithBackoff {α : Type} (op : Nat → Except FetchError α)
    (cfg : RetryConfig := RETRY_CONFIG) : RetryTrace α :=
  retryAux op cfg 1 cfg.maxAttempts

/-- What the server does on one HTTP attempt against one endpoint.  This is
the abstraction point for the network: it determines which branch of the
closure inside `fetchModelsFromEndpoint` runs — a rejected `fetch` call, a
non-2xx response, a 2xx response whose JSON fails the Zod schema, or a 2xx
response parsing to a list of validated entries. -/
inductive AttemptOutcome where
  | networkFailure (msg : String)
  | httpFailure (status : Nat) (statusText : String) (errorText : String)
  | invalidJson (msg : String)
  | validData (entries : List NanoGPTModelDetails)
deriving DecidableEq, Repr

/-- The result object of a successful `fetchModelsFromEndpoint`
(`{ models, endpoint }`). -/
structure FetchResult where
  models : List CategorizedModel
  endpoint : String
deriving DecidableEq, Repr

/-- One execution of the closure passed to `retryWithBackoff` inside
`fetchModelsFromEndpoint` (`nanogptModels.ts`): throw on transport
failure, non-2xx, schema mismatch, or an empty `data` array; otherwise
stamp every entry with the endpoint's url and category. -/
def fetchAttempt (endpoint : EndpointConfig) :
    AttemptOutcome → Except FetchError FetchResult
  | .networkFailure msg => .error (.network msg)
  | .httpFailure status statusText errorText =>
      .error (.http status statusText errorText)
  | .invalidJson msg => .error (.validation msg)
  | .validData entries =>
      if entries.length = 0 then
        .error .emptyCatalog
      else
        .ok { models := entries.map (fun m =>
                { toNanoGPTModelDetails := m
                  endpoint := endpoint.url
                  category := endpoint.category })
              endpoint := endpoint.url }

/-- `fetchModelsFromEndpoint` from `nanogptModels.ts`: the per-attempt
closure run through `retryWithBackoff` with the default `RETRY_CONFIG`.
`server k` is the network's behaviour on the k-th attempt. -/
def fetchModelsFromEndpoint (endpoint : EndpointConfig)
    (server : Nat → AttemptOutcome) : RetryTrace FetchResult :=
  retryWithBackoff (fun k => fetchAttempt endpoint (server k)) RETRY_CONFIG

/-- The full retry trace of one category's fetch inside
`NanoGPTModelsService.fetchModels`: `server c k` is the network's
behaviour on the k-th attempt against category `c`'s endpoint. -/
def categoryTrace (server : ModelType → Nat → AttemptOutcome)
    (c : ModelType) : RetryTrace FetchResult :=
  fetchModelsFromEndpoint (ENDPOINT_CONFIGS c) (server c)

/-- The final outcome of one category's fetch (success or the last error
rethrown by `retryWithBackoff`). -/
def categoryFetch (server : ModelType → Nat → AttemptOutcome)
    (c : ModelType) : Except FetchError FetchResult :=
  (categoryTrace server c).result

/-- The fallback list built by `fetchModels`: push `all`, `premium`,
`subscription` in that order, each guarded by `modelType !== …`, then
filter out `modelType` again (the source's redundant second exclusion). -/
def fallbackOrder (modelType : ModelType) : List ModelType :=
  (((if modelType ≠ ModelType.all then [ModelType.all] else []) ++
    (if modelType ≠ ModelType.premium then [ModelType.premium] else []) ++
    (if modelType ≠ ModelType.subscription then [ModelType.subscription] else [])).filter
      (fun type => type ≠ modelType))

/-- The observable run of one `NanoGPTModelsService.fetchModels` call: the
value returned or the message of the `Error` finally thrown, the
categories attempted in order, and the notifier messages shown through
`vscode.window.showInformationMessage` / `showErrorMessage`. -/
structure OrchestratorRun where
  result : Except String FetchResult
  attempted : List ModelType
  infoMessages : List String
  errorMessages : List String
deriving Repr

/-- The fallback loop of `fetchModels`: try each remaining category once
(through its own retry budget); on the first success show the
"Primary endpoint unavailable" notice and return; if the loop ends, show
the error notice built from the primary category's error and throw the
final `Error` (also built from the primary error only). -/
def runFallbacks (server : ModelType → Nat → AttemptOutcome)
    (primaryName : String) (primaryMsg : String) :
    List ModelType → OrchestratorRun
  | [] =>
    { result := .error ("All NanoGPT endpoints failed. Primary: " ++ primaryName ++
        ". Last error: " ++ primaryMsg)
      attempted := []
      infoMessages := []
      errorMessages := ["Failed to fetch models from all NanoGPT endpoints. Last error: " ++
        primaryMsg ++ ". Please check your API key and internet connection."] }
  | c :: rest =>
    match categoryFetch server c with
    | .ok r =>
      { result := .ok r
        attempted := [c]
        infoMessages := ["Primary endpoint unavailable. Using " ++
          (ENDPOINT_CONFIGS c).displayName ++ " instead."]
        errorMessages := [] }
    | .error _ =>
      let restRun := runFallbacks server primaryName primaryMsg rest
      { restRun with attempted := c :: restRun.attempted }

/-- `NanoGPTModelsService.fetchModels` from `nanogptModels.ts`:
try the configured category first; on any failure walk `fallbackOrder`,
stopping at the first success; when everything fails, throw an `Error`
whose message names the primary endpoint and carries the primary
category's error message. -/
def fetchModels (server : ModelType → Nat → AttemptOutcome)
    (modelType : ModelType) : OrchestratorRun :=
  match categoryFetch server modelType with
  | .ok r =>
    { result := .ok r, attempted := [modelType], infoMessages := [], errorMessages := [] }
  | .error e =>
    let fallbackRun := runFallbacks server (ENDPOINT_CONFIGS modelType).displayName
      e.message (fallbackOrder modelType)
    { fallbackRun with attempted := modelType :: fallbackRun.attempted }

/-- JavaScript falsiness of an optional string: `undefined` and the empty
string are falsy (`!apiKey` in the source). -/
def strFalsy : Option String → Bool
  | none => true
  | some s => s = ""

/-- The observable run of one `ensureApiKey` call: the value returned, the
content of the `"nanogpt.apiKey"` secret-store slot afterwards, and
whether `showInputBox` was called. -/
structure EnsureApiKeyRun where
  result : Option String
  stored : Option String
  promptShown : Bool
deriving DecidableEq, Repr

/-- `NanoGPTModelsService.ensureApiKey` from `nanogptModels.ts`.
`stored` is the current content of the `"nanogpt.apiKey"` slot of
`SecretStorage` (`secrets.get`); `promptResponse` is what `showInputBox`
would resolve to (`none` = the user dismisses the box).  A prompt is shown
only when the stored key is falsy and the call is not silent; a
non-blank entry is trimmed, stored, and returned. -/
def ensureApiKey (stored : Option String) (silent : Bool)
    (promptResponse : Option String) : EnsureApiKeyRun :=
  if strFalsy stored && !silent then
    match promptResponse with
    | none => { result := stored, stored := stored, promptShown := true }
    | some entered =>
      if entered.trim ≠ "" then
        { result := some entered.trim, stored := some entered.trim, promptShown := true }
      else
        { result := stored, stored := stored, promptShown := true }
  else
    { result := stored, stored := stored, promptShown := false }

/-- The fields of `vscode.LanguageModelChatInformation` that the provider
populates (capabilities inlined). -/
structure LanguageModelChatInformation where
  id : String
  name : String
  tooltip : String
  detail : String
  family : String
  version : String
  maxInputTokens : Int
  maxOutputTokens : Int
  toolCalling : Bool
  imageInput : Bool
deriving DecidableEq, Repr

/-- JavaScript truthiness of an optional string as used in the template
conditionals (`m.owned_by ? … : …`). -/
def strTruthy : Option String → Bool
  | none => false
  | some s => s ≠ ""

/-- The per-entry body of the processing loop in
`prepareLanguageModelChatInformation` (`nanogptModels.ts`): build the
descriptor for one categorized model.  `m.category` is always truthy (the
three category strings are non-empty), so the tooltip always carries the
`[category]` tag. -/
def modelInfoOf (m : CategorizedModel) : LanguageModelChatInformation :=
  { id := m.id
    name := m.name
    tooltip := (if strTruthy m.owned_by then "Owned by " ++ m.owned_by.getD ""
                else "NanoGPT Model") ++ " [" ++ m.category.asString ++ "]"
    detail := "NanoGPT.com"
    family := "nanogpt"
    version := "1.0.0"
    maxInputTokens := m.context_length.getD DEFAULT_CONTEXT_LENGTH
    maxOutputTokens := m.max_output_length.getD DEFAULT_MAX_OUTPUT_TOKENS
    toolCalling := true
    imageInput := m.vision.getD false }

/-- The processing loop of `prepareLanguageModelChatInformation`: entries
whose `id` is falsy (the empty string, since `id` is a validated string)
are skipped with `continue`; every other entry yields a descriptor.  The
loop body after the `id` guard cannot throw, so the `catch` branch that
would push a fallback descriptor is unreachable. -/
def buildInfos (models : List CategorizedModel) : List LanguageModelChatInformation :=
  models.filterMap (fun m => if m.id = "" then none else some (modelInfoOf m))

/-- The observable run of one `prepareLanguageModelChatInformation` call:
the resolved list, the number of HTTP attempts issued, the prompt /
secret-store effects of `ensureApiKey`, and the notifier messages. -/
structure PrepareRun where
  result : List LanguageModelChatInformation
  networkAttempts : Nat
  promptShown : Bool
  stored : Option String
  infoMessages : List String
  errorMessages : List String
deriving Repr

/-- `NanoGPTModelsService.prepareLanguageModelChatInformation` from
`nanogptModels.ts`.  The final `_tokenCancelled` argument embeds the
`_token : CancellationToken` parameter, which the source never reads.
With a falsy key the call returns `[]` before any fetch; otherwise it runs
`fetchModels`, resolves `[]` on its failure (adding a notice when not
silent), and otherwise feeds the fetched models through the processing
loop.  `networkAttempts` counts the HTTP attempts of every category tried. -/
def prepareLanguageModelChatInformation (stored : Option String) (silent : Bool)
    (promptResponse : Option String) (server : ModelType → Nat → AttemptOutcome)
    (modelType : ModelType) (_tokenCancelled : Bool) : PrepareRun :=
  let keyRun := ensureApiKey stored silent promptResponse
  if strFalsy keyRun.result then
    { result := []
      networkAttempts := 0
      promptShown := keyRun.promptShown
      stored := keyRun.stored
      infoMessages := []
      errorMessages := [] }
  else
    let fm := fetchModels server modelType
    let attempts := (fm.attempted.map (fun c => (categoryTrace server c).attempts)).sum
    match fm.result with
    | .error msg =>
      { result := []
        networkAttempts := attempts
        promptShown := keyRun.promptShown
        stored := keyRun.stored
        infoMessages := fm.infoMessages ++
          (if silent then [] else
            ["Unable to load NanoGPT models: " ++ msg ++
             ". Please check your API key and try again."])
        errorMessages := fm.errorMessages }
    | .ok r =>
      { result := buildInfos r.models
        networkAttempts := attempts
        promptShown := keyRun.promptShown
        stored := keyRun.stored
        infoMessages := fm.infoMessages
        errorMessages := fm.errorMessages }

/-- The category order the specification prescribes for resolution: the
preferred category first, then the endpoint registry's fixed order
(all, premium, subscription) with the already-tried category excluded.
Stated from the spec's words, to be compared with the behaviour of
`fetchModels`. -/
def specCategoryOrder (preferred : ModelType) : List ModelType :=
  preferred ::
    ([ModelType.all, ModelType.premium, ModelType.subscription].filter
      (fun c => c ≠ preferred))

/-- `true` on the error constructor of `Except`. -/
def exceptIsError {ε α : Type} : Except ε α → Bool
  | .error _ => true
  | .ok _ => false

/-- Reasoning effort levels (`types.ts` configuration schema). -/
inductive Effort where
  | low
  | medium
  | high
deriving DecidableEq, Repr

/-- Search modes (`types.ts` configuration schema). -/
inductive SearchMode where
  | standard
  | deep
deriving DecidableEq, Repr

/-- BYOK providers (`types.ts` configuration schema). -/
inductive Provider where
  | openai
  | anthropic
  | google
deriving DecidableEq, Repr

/-- A reasoning toggle of a `FeatureToggleSnapshot`. -/
structure ReasoningToggle where
  enabled : Bool
  effort : Effort
deriving DecidableEq, Repr

/-- A memory toggle of a `FeatureToggleSnapshot`. -/
structure MemoryToggle where
  enabled : Bool
  days : Nat
deriving DecidableEq, Repr

/-- A search toggle of a `FeatureToggleSnapshot`. -/
structure SearchToggle where
  enabled : Bool
  mode : SearchMode
deriving DecidableEq, Repr

/-- A BYOK toggle of a `FeatureToggleSnapshot`. -/
structure ByokToggle where
  enabled : Bool
  provider : Provider
deriving DecidableEq, Repr

/-- The immutable toggle snapshot the caller supplies per composition call
(spec data model; field shapes match the `nanogpt` configuration schema in
`types.ts`). -/
structure FeatureToggleSnapshot where
  reasoning : ReasoningToggle
  memory : MemoryToggle
  search : SearchToggle
  byok : ByokToggle
deriving DecidableEq, Repr

/-- Per-call override of a snapshot: present fields take precedence
field-by-field, absent fields fall through to the snapshot. -/
structure FeatureToggleOverride where
  reasoning : Option ReasoningToggle := none
  memory : Option MemoryToggle := none
  search : Option SearchToggle := none
  byok : Option ByokToggle := none
deriving DecidableEq, Repr

/-- The composed request fragment the Feature Composer produces. -/
structure ComposedRequest where
  baseId : String
  suffix : String
  headers : List (String × String)
  bodyFields : List (String × String)
deriving DecidableEq, Repr

/-- The platform-default memory duration: `memory.defaultDays` defaults to
30 in the `nanogpt` configuration schema (`types.ts`). -/
def PLATFORM_DEFAULT_MEMORY_DAYS : Nat := 30

/-- The search suffix token: `:online` in standard mode,
`:online/linkup-deep` in deep mode, nothing when search is disabled. -/
def searchToken (search : SearchToggle) : String :=
  if search.enabled then
    match search.mode with
    | .standard => ":online"
    | .deep => ":online/linkup-deep"
  else ""

/-- The memory suffix token: `:memory` at the platform default duration,
`:memory-` followed by the day count otherwise, nothing when memory is
disabled. -/
def memoryToken (memory : MemoryToggle) : String :=
  if memory.enabled then
    if memory.days = PLATFORM_DEFAULT_MEMORY_DAYS then ":memory"
    else ":memory-" ++ toString memory.days
  else ""

/-- Modelled from the spec: the Feature Composer (`compose`) lives in the
request-building layer (`src/utils.ts` / `src/provider.ts`), which is not
among the available sources; this definition follows §4.4–§4.5 of the
specification.  Override fields take precedence field-by-field; `days`
outside [1,365] is rejected before any token is emitted; suffix tokens are
appended to `baseId` in the canonical order search marker then memory
marker; reasoning and BYOK become body fields (BYOK also a header), never
suffix tokens. -/
def compose (baseId : String) (snapshot : FeatureToggleSnapshot)
    (perCallOverride : FeatureToggleOverride := {}) :
    Except String ComposedRequest :=
  let toggles : FeatureToggleSnapshot :=
    { reasoning := perCallOverride.reasoning.getD snapshot.reasoning
      memory := perCallOverride.memory.getD snapshot.memory
      search := perCallOverride.search.getD snapshot.search
      byok := perCallOverride.byok.getD snapshot.byok }
  if toggles.memory.days < 1 ∨ 365 < toggles.memory.days then
    .error "ValidationError: memory days must lie in [1,365]"
  else
    .ok
      { baseId := baseId
        suffix := baseId ++ (searchToken toggles.search ++ memoryToken toggles.memory)
        headers := if toggles.byok.enabled then [("x-use-byok", "true")] else []
        bodyFields :=
          (if toggles.reasoning.enabled then
            [("reasoning.enabled", "true"),
             ("reasoning.effort",
              match toggles.reasoning.effort with
              | .low => "low"
              | .medium => "medium"
              | .high => "high")]
          else []) ++
          (if toggles.byok.enabled then
            [("byok.enabled", "true"),
             ("byok.provider",
              match toggles.byok.provider with
              | .openai => "openai"
              | .anthropic => "anthropic"
              | .google => "google")]
          else []) }

/-! ### Concrete servers and operations used by counterexamples and witnesses -/

/-- A server whose every attempt, for every category, yields a 500
response. -/
def allFailServer : ModelType → Nat → AttemptOutcome :=
  fun _ _ => .httpFailure 500 "Internal Server Error" ""

/-- A catalog entry with all optional fields absent. -/
def sampleEntry : NanoGPTModelDetails := { id := "gpt-4o", name := "GPT-4o" }

/-- A server whose every attempt succeeds with one well-formed entry. -/
def okServer : ModelType → Nat → AttemptOutcome :=
  fun _ _ => .validData [sampleEntry]

/-- A validated entry whose `id` is the empty string (accepted by
`z.string()`). -/
def emptyIdEntry : NanoGPTModelDetails := { id := "", name := "ghost" }

/-- A server whose every attempt succeeds with the single empty-id entry. -/
def emptyIdServer : ModelType → Nat → AttemptOutcome :=
  fun _ _ => .validData [emptyIdEntry]

/-- Premium fails with a 500, the `all` fallback with a validation error,
the `subscription` fallback with an empty catalog. -/
def serverFallbackA : ModelType → Nat → AttemptOutcome := fun c _ =>
  match c with
  | .premium => .httpFailure 500 "Internal Server Error" ""
  | .all => .invalidJson "A"
  | .subscription => .validData []

/-- Premium fails exactly as in `serverFallbackA`, but both fallbacks fail
differently (404 and a different validation error). -/
def serverFallbackB : ModelType → Nat → AttemptOutcome := fun c _ =>
  match c with
  | .premium => .httpFailure 500 "Internal Server Error" ""
  | .all => .httpFailure 404 "Not Found" "gone"
  | .subscription => .invalidJson "B"

/-- An operation failing on attempts 1 and 2 and succeeding on attempt 3. -/
def failTwiceOp : Nat → Except FetchError Unit := fun k =>
  if k ≤ 2 then .error (.http 500 "Internal Server Error" "") else .ok ()

/-! ### Retry Executor lemmas -/

/-- The attempt counter of the retry loop never goes below the attempt it
started at. -/
theorem retryAux_attempts_ge {α : Type} (op : Nat → Except FetchError α)
    (cfg : RetryConfig) :
    ∀ remaining attempt, attempt ≤ (retryAux op cfg attempt remaining).attempts := by
  intro remaining
  induction remaining using Nat.strong_induction_on with
  | _ remaining ih =>
    intro attempt
    match remaining with
    | 0 => cases h : op attempt <;> simp [retryAux, h]
    | 1 => cases h : op attempt <;> simp [retryAux, h]
    | (r + 2) =>
      cases h : op attempt with
      | ok v => simp [retryAux, h]
      | error e =>
        have hrec := ih (r + 1) (by omega) (attempt + 1)
        simp only [retryAux, h]
        omega

/-- A persistently failing operation is attempted once per unit of
remaining budget, and the loop ends holding the final attempt's error. -/
theorem retryAux_all_error {α : Type} (e : Nat → FetchError) (cfg : RetryConfig) :
    ∀ r attempt,
      (retryAux (α := α) (fun k => .error (e k)) cfg attempt (r + 1)).result =
        .error (e (attempt + r)) ∧
      (retryAux (α := α) (fun k => .error (e k)) cfg attempt (r + 1)).attempts =
        attempt + r := by
  intro r
  induction r with
  | zero => intro attempt; simp [retryAux]
  | succ n ih =>
    intro attempt
    have := ih (attempt + 1)
    simp only [retryAux] at this ⊢
    constructor
    · rw [this.1]; ring_nf
    · rw [this.2]; ring_nf

/-- The backoff suspensions recorded by the retry loop: starting at
attempt `a ≥ 1`, the i-th recorded delay (0-indexed) is
`delayMs * backoffMultiplier ^ (a - 1 + i)`. -/
theorem retryAux_delays {α : Type} (op : Nat → Except FetchError α)
    (cfg : RetryConfig) :
    ∀ remaining attempt, 1 ≤ attempt →
      (retryAux op cfg attempt remaining).delays =
        (List.range ((retryAux op cfg attempt remaining).attempts - attempt)).map
          (fun i => cfg.delayMs * cfg.backoffMultiplier ^ (attempt - 1 + i)) := by
  intro remaining
  induction remaining using Nat.strong_induction_on with
  | _ remaining ih =>
    intro attempt ha
    match remaining with
    | 0 => cases h : op attempt <;> simp [retryAux, h]
    | 1 => cases h : op attempt <;> simp [retryAux, h]
    | (r + 2) =>
      cases h : op attempt with
      | ok v => simp [retryAux, h]
      | error e =>
        have hge := retryAux_attempts_ge op cfg (r + 1) (attempt + 1)
        have hrec := ih (r + 1) (by omega) (attempt + 1) (by omega)
        simp only [retryAux, h]
        have hn : (retryAux op cfg (attempt + 1) (r + 1)).attempts - attempt =
            ((retryAux op cfg (attempt + 1) (r + 1)).attempts - (attempt + 1)) + 1 := by
          omega
        rw [hn, List.range_succ_eq_map, List.map_cons, List.map_map, hrec]
        congr 1
        apply List.map_congr_left
        intro i _
        simp only [Function.comp]
        congr 1
        congr 1
        omega

/-- C1, counterexample: a non-transient failure is NOT returned after one
attempt.  A schema-validation failure and an empty-catalog failure, run
through the retry wrapper by `fetchModelsFromEndpoint`, are each attempted
3 times with two backoff suspensions — the wrapper never inspects the
failure class. -/
theorem validation_and_empty_failures_are_retried :
    (fetchModelsFromEndpoint (ENDPOINT_CONFIGS ModelType.all)
      (fun _ => .invalidJson "Expected string, received number")).attempts = 3 ∧
    (fetchModelsFromEndpoint (ENDPOINT_CONFIGS ModelType.all)
      (fun _ => .invalidJson "Expected string, received number")).delays = [1000, 2000] ∧
    (fetchModelsFromEndpoint (ENDPOINT_CONFIGS ModelType.all)
      (fun _ => .validData [])).attempts = 3 ∧
    (fetchModelsFromEndpoint (ENDPOINT_CONFIGS ModelType.all)
      (fun _ => .validData [])).result = .error .emptyCatalog ∧
    (fetchModelsFromEndpoint (ENDPOINT_CONFIGS ModelType.all)
      (fun _ => .invalidJson "Expected string, received number")).attempts ≠ 1 :=
  ⟨rfl, rfl, rfl, rfl, by decide⟩

/-- C1, amended: `retryWithBackoff` applies the same retry policy to every
failure class — any persistently failing operation, whatever errors it
throws (validation, empty-catalog, HTTP or network alike), is attempted
exactly `maxAttempts` times, and the error of the final attempt is then
returned to the caller. -/
theorem retryWithBackoff_uniform_retry {α : Type} (e : Nat → FetchError)
    (cfg : RetryConfig) (h : 1 ≤ cfg.maxAttempts) :
    (retryWithBackoff (α := α) (fun k => .error (e k)) cfg).result =
      .error (e cfg.maxAttempts) ∧
    (retryWithBackoff (α := α) (fun k => .error (e k)) cfg).attempts =
      cfg.maxAttempts := by
  have hm : cfg.maxAttempts = (cfg.maxAttempts - 1) + 1 := by omega
  have := retryAux_all_error (α := α) e cfg (cfg.maxAttempts - 1) 1
  unfold retryWithBackoff
  rw [hm]
  constructor
  · rw [this.1]
    congr 1
    congr 1
    omega
  · rw [this.2]
    omega

/-- Witness for `retryWithBackoff_uniform_retry` at a concrete
always-failing validation operation and the production `RETRY_CONFIG`. -/
theorem retryWithBackoff_uniform_retry_witness :
    (retryWithBackoff (α := Unit)
      (fun _ => .error (.validation "bad")) RETRY_CONFIG).result =
      .error (.validation "bad") ∧
    (retryWithBackoff (α := Unit)
      (fun _ => .error (.validation "bad")) RETRY_CONFIG).attempts = 3 :=
  retryWithBackoff_uniform_retry (fun _ => .validation "bad") RETRY_CONFIG (by decide)

/-- C6: the suspension between attempt k and attempt k+1 lasts
`delayMs * backoffMultiplier ^ (k - 1)` — the i-th recorded delay
(0-indexed, so k = i + 1) of any run is `delayMs * backoffMultiplier ^ i`
— and with `maxAttempts = 3`, `delayMs = 1000`, `backoffMultiplier = 2`
(the production `RETRY_CONFIG`), an operation failing twice then
succeeding resolves successfully after suspensions of exactly 1000 ms and
2000 ms. -/
theorem retryWithBackoff_delay_schedule :
    (∀ (α : Type) (op : Nat → Except FetchError α) (cfg : RetryConfig),
      (retryWithBackoff op cfg).delays =
        (List.range ((retryWithBackoff op cfg).attempts - 1)).map
          (fun i => cfg.delayMs * cfg.backoffMultiplier ^ i)) ∧
    (retryWithBackoff failTwiceOp RETRY_CONFIG).result = .ok () ∧
    (retryWithBackoff failTwiceOp RETRY_CONFIG).delays = [1000, 2000] := by
  refine ⟨?_, rfl, rfl⟩
  intro α op cfg
  have := retryAux_delays op cfg cfg.maxAttempts 1 (by omega)
  unfold retryWithBackoff
  simpa using this

/-- When every category in the fallback list fails, the fallback loop
falls through to the final throw, whose message is built from the primary
category's failure only. -/
theorem runFallbacks_all_error (server : ModelType → Nat → AttemptOutcome)
    (primaryName primaryMsg : String) :
    ∀ l : List ModelType,
      (∀ c ∈ l, exceptIsError (categoryFetch server c) = true) →
      (runFallbacks server primaryName primaryMsg l).result =
        .error ("All NanoGPT endpoints failed. Primary: " ++ primaryName ++
          ". Last error: " ++ primaryMsg) := by
  intro l
  induction l with
  | nil => intro _; rfl
  | cons c rest ih =>
    intro h
    have hc := h c (List.mem_cons_self c rest)
    cases hf : categoryFetch server c with
    | ok v => rw [hf] at hc; simp [exceptIsError] at hc
    | error e =>
      simp only [runFallbacks, hf]
      exact ih (fun d hd => h d (List.mem_cons_of_mem c hd))

/-- C2, counterexample: the error raised when every category fails does
not carry the subsequent per-category failures.  Two servers whose
preferred category (premium) fails identically but whose fallback
categories fail with different errors produce byte-identical resolution
runs — the raised error (and every notifier message) mentions only the
primary failure. -/
theorem aggregate_error_drops_fallback_failures :
    fetchModels serverFallbackA ModelType.premium =
      fetchModels serverFallbackB ModelType.premium ∧
    categoryFetch serverFallbackA ModelType.all = .error (.validation "A") ∧
    categoryFetch serverFallbackB ModelType.all =
      .error (.http 404 "Not Found" "gone") ∧
    (fetchModels serverFallbackA ModelType.premium).result =
      .error ("All NanoGPT endpoints failed. Primary: Premium Models. " ++
        "Last error: HTTP 500: Internal Server Error - ") :=
  ⟨rfl, rfl, rfl, rfl⟩

/-- C2, amended: whenever every category's fetch fails during model
resolution, `fetchModels` raises a single `Error` whose message names the
preferred category's endpoint and carries the preferred category's error
message only; the subsequent per-category failures are logged and
discarded, not carried in the raised error. -/
theorem fetchModels_all_fail_error (server : ModelType → Nat → AttemptOutcome)
    (modelType : ModelType) (e : FetchError)
    (hp : categoryFetch server modelType = .error e)
    (hall : ∀ c, exceptIsError (categoryFetch server c) = true) :
    (fetchModels server modelType).result =
      .error ("All NanoGPT endpoints failed. Primary: " ++
        (ENDPOINT_CONFIGS modelType).displayName ++
        ". Last error: " ++ e.message) := by
  simp only [fetchModels, hp]
  exact runFallbacks_all_error server (ENDPOINT_CONFIGS modelType).displayName
    e.message (fallbackOrder modelType) (fun c _ => hall c)

/-- Witness for `fetchModels_all_fail_error` at a server answering every
attempt with a 500 response. -/
theorem fetchModels_all_fail_error_witness :
    (fetchModels allFailServer ModelType.all).result =
      .error ("All NanoGPT endpoints failed. Primary: All Models. " ++
        "Last error: HTTP 500: Internal Server Error - ") :=
  fetchModels_all_fail_error allFailServer ModelType.all
    (.http 500 "Internal Server Error" "") rfl (by intro c; cases c <;> rfl)

/-- C3: model resolution attempts the preferred category first and then
exactly the remaining categories of the fixed registry order
(all, premium, subscription), the already-tried one excluded, each once,
stopping at the first category that succeeds: the attempted sequence is
the failing prefix of `specCategoryOrder` followed by the first succeeding
category (if any), and when a first succeeding category exists its result
is the one returned. -/
theorem fetchModels_follows_spec_order (server : ModelType → Nat → AttemptOutcome)
    (preferred : ModelType) :
    (fetchModels server preferred).attempted =
      (specCategoryOrder preferred).takeWhile
        (fun c => exceptIsError (categoryFetch server c)) ++
      ((specCategoryOrder preferred).dropWhile
        (fun c => exceptIsError (categoryFetch server c))).take 1 ∧
    (∀ (c : ModelType) (r : FetchResult),
      ((specCategoryOrder preferred).dropWhile
        (fun c => exceptIsError (categoryFetch server c))).head? = some c →
      categoryFetch server c = .ok r →
      (fetchModels server preferred).result = .ok r) := by
  cases hA : categoryFetch server ModelType.all <;>
    cases hP : categoryFetch server ModelType.premium <;>
      cases hS : categoryFetch server ModelType.subscription <;>
        cases preferred <;>
          refine ⟨?_, ?_⟩ <;>
            simp_all [fetchModels, runFallbacks, fallbackOrder, specCategoryOrder,
              exceptIsError, List.takeWhile, List.dropWhile]

/-- The result `okServer` produces for the premium category. -/
def okPremiumResult : FetchResult :=
  { models := [{ toNanoGPTModelDetails := sampleEntry
                 endpoint := "https://nano-gpt.com/api/paid/v1/models?detailed=true"
                 category := .premium }]
    endpoint := "https://nano-gpt.com/api/paid/v1/models?detailed=true" }

/-- Witness for `fetchModels_follows_spec_order`: with an always-succeeding
server and preferred category premium, the first category of the spec
order succeeds and its result is returned. -/
theorem fetchModels_follows_spec_order_witness :
    (fetchModels okServer ModelType.premium).result = .ok okPremiumResult :=
  (fetchModels_follows_spec_order okServer ModelType.premium).2
    ModelType.premium okPremiumResult rfl rfl

/-- C4, counterexample: invoking resolution with an already-active
cancellation signal does not yield a cancellation outcome and does not
prevent network calls — the run is byte-identical to the uncancelled one,
issues one HTTP attempt, and resolves with the fetched model list. -/
theorem cancelled_token_is_ignored :
    prepareLanguageModelChatInformation (some "key") true none okServer
      ModelType.all true =
      prepareLanguageModelChatInformation (some "key") true none okServer
        ModelType.all false ∧
    (prepareLanguageModelChatInformation (some "key") true none okServer
      ModelType.all true).networkAttempts = 1 ∧
    (prepareLanguageModelChatInformation (some "key") true none okServer
      ModelType.all true).result ≠ [] :=
  ⟨rfl, rfl, by decide⟩

/-- C4, amended: `prepareLanguageModelChatInformation` ignores its
cancellation token entirely — every observable of the run (result, network
attempts, prompts, secret-store state, notifier messages) is identical
whether or not the signal is already active; in particular an active
signal neither yields a cancellation outcome nor suppresses network calls
or the notifier. -/
theorem prepare_ignores_cancellation (stored : Option String) (silent : Bool)
    (promptResponse : Option String) (server : ModelType → Nat → AttemptOutcome)
    (modelType : ModelType) :
    prepareLanguageModelChatInformation stored silent promptResponse server
      modelType true =
    prepareLanguageModelChatInformation stored silent promptResponse server
      modelType false := rfl

/-- C5, counterexample: an entry whose (schema-valid) `id` is the empty
string is dropped by normalization: a validated fetch result holding one
such entry yields zero descriptors, so the descriptor count does not equal
the entry count. -/
theorem empty_id_entry_is_dropped :
    ((fetchModels emptyIdServer ModelType.all).result.map
      (fun r => r.models.length)) = .ok 1 ∧
    (prepareLanguageModelChatInformation (some "k") true none emptyIdServer
      ModelType.all false).result.length = 0 ∧
    (prepareLanguageModelChatInformation (some "k") true none emptyIdServer
      ModelType.all false).result.length ≠ 1 :=
  ⟨rfl, rfl, by decide⟩

/-- C5, amended: normalization of one entry never raises, and no entry
with a non-empty `id` is dropped or degraded — the processing loop maps
exactly the entries with non-empty `id` to their descriptors and skips the
entries whose `id` is the empty string, so the number of returned
descriptors equals the number of input entries with non-empty `id`. -/
theorem buildInfos_keeps_nonempty_ids (models : List CategorizedModel) :
    buildInfos models =
      (models.filter (fun m => m.id ≠ "")).map modelInfoOf ∧
    (buildInfos models).length =
      (models.filter (fun m => m.id ≠ "")).length := by
  constructor
  · induction models with
    | nil => rfl
    | cons m rest ih =>
      by_cases h : m.id = "" <;>
        simp [buildInfos, List.filterMap_cons, h, ih, List.filter_cons] <;>
        simpa [buildInfos] using ih
  · induction models with
    | nil => rfl
    | cons m rest ih =>
      by_cases h : m.id = "" <;>
        simp [buildInfos, List.filterMap_cons, h, List.filter_cons] <;>
        simpa [buildInfos] using ih

/-- C8: whatever error arises while fetching models — an HTTP failure, a
validation failure, an empty catalog, or the all-endpoints-failed error —
`prepareLanguageModelChatInformation` never rejects: the error is caught
and the call resolves to the empty list. -/
theorem prepare_resolves_empty_on_fetch_failure (stored : Option String)
    (silent : Bool) (promptResponse : Option String)
    (server : ModelType → Nat → AttemptOutcome) (modelType : ModelType)
    (tokenCancelled : Bool) (msg : String)
    (h : (fetchModels server modelType).result = .error msg) :
    (prepareLanguageModelChatInformation stored silent promptResponse server
      modelType tokenCancelled).result = [] := by
  simp only [prepareLanguageModelChatInformation]
  cases hb : strFalsy (ensureApiKey stored silent promptResponse).result <;>
    simp [hb, h]

/-- Witness for `prepare_resolves_empty_on_fetch_failure` at a server whose
every attempt yields a 500 response, making every category fail. -/
theorem prepare_resolves_empty_on_fetch_failure_witness :
    (prepareLanguageModelChatInformation (some "k") true none allFailServer
      ModelType.all false).result = [] :=
  prepare_resolves_empty_on_fetch_failure (some "k") true none allFailServer
    ModelType.all false
    ("All NanoGPT endpoints failed. Primary: All Models. " ++
     "Last error: HTTP 500: Internal Server Error - ") rfl

/-- C9: with no stored API key and a silent call,
`prepareLanguageModelChatInformation` resolves to the empty list before
ever reaching the fetch path, issuing zero network requests. -/
theorem prepare_silent_without_key_is_inert (promptResponse : Option String)
    (server : ModelType → Nat → AttemptOutcome) (modelType : ModelType)
    (tokenCancelled : Bool) :
    (prepareLanguageModelChatInformation none true promptResponse server
      modelType tokenCancelled).result = [] ∧
    (prepareLanguageModelChatInformation none true promptResponse server
      modelType tokenCancelled).networkAttempts = 0 :=
  ⟨rfl, rfl⟩

/-- C10: `ensureApiKey` called silently shows no prompt and writes nothing
to secret storage — it returns exactly the stored key (or nothing when
none is stored) and leaves the `"nanogpt.apiKey"` slot unchanged. -/
theorem ensureApiKey_silent_is_readonly (stored : Option String)
    (promptResponse : Option String) :
    ensureApiKey stored true promptResponse =
      { result := stored, stored := stored, promptShown := false } := by
  simp [ensureApiKey]

/-- C7: for every base model id, `compose` appends suffix tokens in the
canonical order search marker first then memory marker: with search
enabled in standard mode and memory enabled at the platform-default day
count the suffix is `baseId ++ ":online:memory"`, and with any valid day
count different from the platform default it is
`baseId ++ ":online:memory-" ++ toString days`.  (Spec-modelled: the
Feature Composer is not among the available sources.) -/
theorem compose_canonical_suffix_order (baseId : String) (r : ReasoningToggle)
    (b : ByokToggle) (d : Nat) (h1 : 1 ≤ d) (h2 : d ≤ 365) :
    (compose baseId
      { reasoning := r
        memory := { enabled := true, days := PLATFORM_DEFAULT_MEMORY_DAYS }
        search := { enabled := true, mode := .standard }
        byok := b }).map ComposedRequest.suffix =
      .ok (baseId ++ ":online:memory") ∧
    (d ≠ PLATFORM_DEFAULT_MEMORY_DAYS →
      (compose baseId
        { reasoning := r
          memory := { enabled := true, days := d }
          search := { enabled := true, mode := .standard }
          byok := b }).map ComposedRequest.suffix =
        .ok (baseId ++ (":online:memory-" ++ toString d))) := by
  constructor
  · have hval : ¬(PLATFORM_DEFAULT_MEMORY_DAYS < 1 ∨
        365 < PLATFORM_DEFAULT_MEMORY_DAYS) := by decide
    simp [compose, hval, searchToken, memoryToken]
    rfl
  · intro hd
    have hval : ¬(d = 0 ∨ 365 < d) := by omega
    simp [compose, hval, searchToken, memoryToken, hd, Except.map,
      ← String.append_assoc]

/-- Witness for `compose_canonical_suffix_order` at the base id "gpt-4o"
and a 90-day memory duration. -/
theorem compose_canonical_suffix_order_witness :
    (compose "gpt-4o"
      { reasoning := { enabled := true, effort := .medium }
        memory := { enabled := true, days := 30 }
        search := { enabled := true, mode := .standard }
        byok := { enabled := false, provider := .openai } }).map
      ComposedRequest.suffix = .ok "gpt-4o:online:memory" ∧
    (compose "gpt-4o"
      { reasoning := { enabled := true, effort := .medium }
        memory := { enabled := true, days := 90 }
        search := { enabled := true, mode := .standard }
        byok := { enabled := false, provider := .openai } }).map
      ComposedRequest.suffix = .ok "gpt-4o:online:memory-90" :=
  ⟨(compose_canonical_suffix_order "gpt-4o" { enabled := true, effort := .medium }
      { enabled := false, provider := .openai } 90 (by decide) (by decide)).1,
   (compose_canonical_suffix_order "gpt-4o" { enabled := true, effort := .medium }
      { enabled := false, provider := .openai } 90 (by decide) (by decide)).2
     (by decide)⟩

end NanoGPT
